import Mathlib

/-!
Verification of the `neo` bacnet-test-devices simulation scripts.

The four Python sources (`virtual_vav.py`, `virtual_ahu.py`,
`virtual_all_devices.py`, `simple_device.py`) each hold a creation routine
building a per-device dict of BACnet point objects, and a `simulate_values`
loop that each tick mutates those points: bounded random walks for the
analog sensors, a proportional-tracking rule for the AHU fan speed, a
probabilistic toggle for VAV occupancy, and a threshold-derived binary for
the AHU fan status.

Analog present values are modelled as rationals; each call to
`random.uniform(a, b)` is modelled as `a + (b - a) * r` for a unit-interval
sample `r` supplied explicitly, so every theorem quantifies over the RNG
draws.  The VAV branch of `virtual_all_devices.simulate_values` is
line-for-line the update of `virtual_vav.simulate_values`, and its AHU
branch is line-for-line the update of `virtual_ahu.simulate_values`, so one
tick function embeds each pair.
-/

namespace Neo

/-- Binary present value: binary points in the sources carry the string
"active" or "inactive". -/
inductive BinaryPV where
  | active
  | inactive
  deriving DecidableEq, Repr

/-- `random.uniform(a, b)` modelled as `a + (b - a) * r` where `r` is a
unit-interval sample from the RNG stream. -/
def unif (a b r : ℚ) : ℚ := a + (b - a) * r

/-- The occupancy toggle expression of `virtual_vav.simulate_values` line 138:
`"active" if presentValue == "inactive" else "inactive"`. -/
def flipPV : BinaryPV → BinaryPV
  | .inactive => .active
  | .active => .inactive

/-- Clamp `x` into `[lo, hi]`, the sources' idiom `max(lo, min(hi, x))`. -/
def clamp (x lo hi : ℚ) : ℚ := max lo (min hi x)

/-- The four point objects of one VAV device (`objects` dict of
`virtual_vav.create_vav_device`): temp AI:1, damper AO:1, occupancy BI:1,
setpoint AV:1. -/
structure VAVObjects where
  temp : ℚ
  damper : ℚ
  occupancy : BinaryPV
  setpoint : ℚ
  deriving DecidableEq, Repr

/-- The RNG draws one VAV tick consumes, in the order the code makes them:
`random.uniform(-0.5, 0.5)` for temp, `random.uniform(-5.0, 5.0)` for
damper, `random.random()` for the occupancy toggle test. -/
structure VAVDraws where
  rTemp : ℚ
  rDamper : ℚ
  rOcc : ℚ
  deriving DecidableEq, Repr

/-- Initial point values built by `VirtualVAVApplication.create_vav_device`
(virtual_vav.py lines 54-91): temp `72.0 + (device_instance % 5)`,
damper `45.0`, occupancy `"inactive" if device_instance % 2 == 0 else
"active"`, setpoint `72.0`.  Identical values in the VAV branch of
`MultiDeviceApplication.create_device` (virtual_all_devices.py lines 61-100). -/
def createVav (device_instance : ℕ) : VAVObjects :=
  { temp := 72 + ((device_instance % 5 : ℕ) : ℚ)
  , damper := 45
  , occupancy := if device_instance % 2 = 0 then .inactive else .active
  , setpoint := 72 }

/-- One VAV tick body (`virtual_vav.simulate_values` lines 120-138, identical
in the VAV branch of `virtual_all_devices.simulate_values` lines 162-180 and
of `simple_device.simulate_values` lines 26-47):
temp walks by `uniform(-0.5, 0.5)` clamped to `[65, 80]`, damper walks by
`uniform(-5.0, 5.0)` clamped to `[0, 100]`, occupancy flips when
`random.random() < 0.1`, setpoint is never touched. -/
def tickVAV (s : VAVObjects) (d : VAVDraws) : VAVObjects :=
  let new_temp := max 65 (min 80 (s.temp + unif (-(1/2)) (1/2) d.rTemp))
  let new_damper := max 0 (min 100 (s.damper + unif (-5) 5 d.rDamper))
  let new_occ := if d.rOcc < 1/10 then flipPV s.occupancy else s.occupancy
  { temp := new_temp, damper := new_damper, occupancy := new_occ
  , setpoint := s.setpoint }

/-- The four point objects of one AHU device (`objects` dict of
`virtual_ahu.create_ahu_device`): supply_temp AI:1, return_temp AI:2,
fan_status BV:1, fan_speed AO:1. -/
structure AHUObjects where
  supply_temp : ℚ
  return_temp : ℚ
  fan_status : BinaryPV
  fan_speed : ℚ
  deriving DecidableEq, Repr

/-- The RNG draws one AHU tick consumes, in code order:
`random.uniform(-1.0, 1.0)` for supply_temp, `random.uniform(-0.5, 0.5)`
for return_temp; fan_speed and fan_status draw nothing. -/
structure AHUDraws where
  rSupply : ℚ
  rReturn : ℚ
  deriving DecidableEq, Repr

/-- Initial point values built by `VirtualAHUApplication.create_ahu_device`
(virtual_ahu.py lines 54-91): supply_temp `55.0`, return_temp `72.0`,
fan_status `"active"`, fan_speed `75.0`.  Identical values in the AHU branch
of `MultiDeviceApplication.create_device` (virtual_all_devices.py lines
102-141). -/
def createAhu : AHUObjects :=
  { supply_temp := 55, return_temp := 72, fan_status := .active
  , fan_speed := 75 }

/-- One AHU tick body (`virtual_ahu.simulate_values` lines 118-144, identical
in the AHU branch of `virtual_all_devices.simulate_values` lines 182-206):
supply_temp walks by `uniform(-1.0, 1.0)` clamped to `[50, 60]`;
return_temp walks by `uniform(-0.5, 0.5)` clamped to `[68, 76]`;
`target_speed = 50.0 + (new_return - 72.0) * 5.0` reads the return
temperature value just committed in this tick; `new_speed = current_speed +
(target_speed - current_speed) * 0.1` clamped to `[30, 100]`; fan_status is
`"active" if new_speed > 20.0 else "inactive"`. -/
def tickAHU (s : AHUObjects) (d : AHUDraws) : AHUObjects :=
  let new_supply := max 50 (min 60 (s.supply_temp + unif (-1) 1 d.rSupply))
  let new_return := max 68 (min 76 (s.return_temp + unif (-(1/2)) (1/2) d.rReturn))
  let target_speed := 50 + (new_return - 72) * 5
  let new_speed := max 30 (min 100 (s.fan_speed + (target_speed - s.fan_speed) * (1/10)))
  let new_status := if new_speed > 20 then BinaryPV.active else BinaryPV.inactive
  { supply_temp := new_supply, return_temp := new_return
  , fan_status := new_status, fan_speed := new_speed }

/-- Folding AHU ticks over a list of per-tick draw records: the state after
any finite number of iterations of `simulate_values`. -/
def runAHU (s : AHUObjects) : List AHUDraws → AHUObjects
  | [] => s
  | d :: ds => runAHU (tickAHU s d) ds

/-- The three point objects of an AHU created by `simple_device.main`
(simple_device.py lines 142-174): supply_temp AI:1, return_temp AI:2,
fan_speed AO:1 — this variant creates no fan_status point. -/
structure SimpleAHU where
  supply_temp : ℚ
  return_temp : ℚ
  fan_speed : ℚ
  deriving DecidableEq, Repr

/-- One AHU tick of `simple_device.simulate_values` lines 49-73 on a device
created by its own `main` (every `objects.get` key present):
`target_speed = 50.0 + (float(return_temp.presentValue) - 72.0) * 5.0` reads
`presentValue` after line 64 already committed the new return temperature,
hence the post-update value; no fan_status exists to update. -/
def tickSimpleAHU (s : SimpleAHU) (d : AHUDraws) : SimpleAHU :=
  let new_supply := max 50 (min 60 (s.supply_temp + unif (-1) 1 d.rSupply))
  let new_return := max 68 (min 76 (s.return_temp + unif (-(1/2)) (1/2) d.rReturn))
  let target_speed := 50 + (new_return - 72) * 5
  let new_speed := max 30 (min 100 (s.fan_speed + (target_speed - s.fan_speed) * (1/10)))
  { supply_temp := new_supply, return_temp := new_return, fan_speed := new_speed }

/-- A present value as stored in an `objects` dict entry. -/
inductive PV where
  | analog (x : ℚ)
  | binary (b : BinaryPV)
  deriving DecidableEq, Repr

/-- The `objects` dict of a VAV created by `simple_device.main` (lines
99-138), keyed by role: temp is the fixed `Real(73.0)` and occupancy the
fixed `"active"` regardless of the DEVICE_INSTANCE environment value. -/
def simpleVavObjects : List (String × PV) :=
  [("temp", .analog 73), ("damper", .analog 45),
   ("occupancy", .binary .active), ("setpoint", .analog 72)]

/-- The `objects` dict of an AHU created by `simple_device.main` (lines
142-174), keyed by role: only supply_temp, return_temp and fan_speed are
inserted; no fan_status entry exists. -/
def simpleAhuObjects : List (String × PV) :=
  [("supply_temp", .analog 55), ("return_temp", .analog 72),
   ("fan_speed", .analog 75)]

/-- One entry of `VirtualVAVApplication.devices` (the dict appended at
virtual_vav.py lines 93-103), restricted to the fields the simulation
reads. -/
structure VAVDevice where
  name : String
  device_instance : ℕ
  objects : VAVObjects
  deriving DecidableEq, Repr

/-- `VirtualVAVApplication.create_vav_device` (virtual_vav.py lines 37-111)
acting on `self.devices`: builds the point objects and appends the new
device entry unconditionally.  The method has no duplicate-instance check
and no failure path — it always returns the new app. -/
def create_vav_device (devices : List VAVDevice) (device_instance : ℕ)
    (device_name : String) : List VAVDevice :=
  devices ++ [{ name := device_name, device_instance := device_instance
              , objects := createVav device_instance }]

/-- The VAV `objects` dict built by `MultiDeviceApplication.create_device`
(virtual_all_devices.py lines 61-100), keyed by role. -/
def vavObjectsDict (device_instance : ℕ) : List (String × PV) :=
  [("temp", .analog (72 + ((device_instance % 5 : ℕ) : ℚ))),
   ("damper", .analog 45),
   ("occupancy", .binary (if device_instance % 2 = 0 then .inactive else .active)),
   ("setpoint", .analog 72)]

/-- The AHU `objects` dict built by `MultiDeviceApplication.create_device`
(virtual_all_devices.py lines 102-141), keyed by role. -/
def ahuObjectsDict : List (String × PV) :=
  [("supply_temp", .analog 55), ("return_temp", .analog 72),
   ("fan_status", .binary .active), ("fan_speed", .analog 75)]

/-- One entry of `MultiDeviceApplication.devices` (the dict appended at
virtual_all_devices.py lines 143-148). -/
structure MDDevice where
  name : String
  device_instance : ℕ
  dtype : String
  objects : List (String × PV)
  deriving DecidableEq, Repr

/-- The mutable state of a `MultiDeviceApplication`: its `devices` list and
whether `self.app` has been created (it starts as `None`). -/
structure MDApp where
  devices : List MDDevice
  hasApp : Bool
  deriving DecidableEq, Repr

/-- `MultiDeviceApplication.create_device` (virtual_all_devices.py lines
33-154).  When `self.app` already exists the call prints a warning and
returns `None` without touching `self.devices` (lines 51-57).  Otherwise the
app is created, the `objects` dict is filled for device_type "VAV" or "AHU"
and left empty `\x7b\x7d` for any other device_type, the device entry is
appended (line 143) in every case, and the `objects` dict is returned.
No exception is raised on any path. -/
def create_device (st : MDApp) (device_instance : ℕ)
    (device_name dtype : String) : MDApp × Option (List (String × PV)) :=
  if st.hasApp then (st, none)
  else
    let objects :=
      if dtype = "VAV" then vavObjectsDict device_instance
      else if dtype = "AHU" then ahuObjectsDict
      else []
    ({ devices := st.devices ++
        [{ name := device_name, device_instance := device_instance
         , dtype := dtype, objects := objects }]
     , hasApp := true },
     some objects)

/-- The error kinds named by the specification's section 7; none of them is
defined or raised anywhere in the four sources. -/
inductive RegistryError where
  | DuplicateInstanceError
  | UnsupportedDeviceTypeError
  deriving DecidableEq, Repr

/-- Modelled from the spec: `DeviceRegistry.create` of section 4.1 restricted
to VAV creation, a registry component absent from the sources — "Fails with
`DuplicateInstanceError` if `instance` already registered", otherwise
constructs the fixed point set and registers the device.  Stated only to be
compared with `create_vav_device`, the code's actual behavior. -/
def registryCreateSpec (devices : List VAVDevice) (device_instance : ℕ)
    (device_name : String) : Except RegistryError (List VAVDevice) :=
  if devices.any (fun d => d.device_instance = device_instance) then
    .error .DuplicateInstanceError
  else
    .ok (devices ++ [{ name := device_name, device_instance := device_instance
                     , objects := createVav device_instance }])

/-- The fan-speed update expression of virtual_ahu.py line 138,
`current_speed + (target_speed - current_speed) * 0.1`, with the code's
fixed smoothing `0.1` generalized to a parameter as in the specification's
ProportionalTracking model. -/
def trackStep (current target smoothing : ℚ) : ℚ :=
  current + (target - current) * smoothing

/-! ## Helper lemmas -/

lemma clamp_bounds (x lo hi : ℚ) (h : lo ≤ hi) :
    lo ≤ max lo (min hi x) ∧ max lo (min hi x) ≤ hi :=
  ⟨le_max_left _ _, max_le h (min_le_left _ _)⟩

lemma derived_status (q : ℚ) :
    (if q > 20 then BinaryPV.active else BinaryPV.inactive) = BinaryPV.active
      ↔ 20 < q := by
  split_ifs with h
  · simp [h]
  · simp [h]

lemma tickAHU_fan_status_active (s : AHUObjects) (d : AHUDraws) :
    (tickAHU s d).fan_status = BinaryPV.active :=
  (derived_status _).mpr (lt_of_lt_of_le (by norm_num) (le_max_left _ _))

lemma runAHU_status (ds : List AHUDraws) (s : AHUObjects)
    (h : s.fan_status = BinaryPV.active) :
    (runAHU s ds).fan_status = BinaryPV.active := by
  induction ds generalizing s with
  | nil => exact h
  | cons d ds ih => exact ih _ (tickAHU_fan_status_active s d)

lemma tickAHU_fan_speed_eq_trackStep (t : AHUObjects) (e : AHUDraws) :
    (tickAHU t e).fan_speed =
      clamp (trackStep t.fan_speed (50 + ((tickAHU t e).return_temp - 72) * 5)
        (1/10)) 30 100 := rfl

lemma createVav_mod_cast_le (device_instance : ℕ) :
    ((device_instance % 5 : ℕ) : ℚ) ≤ 4 := by
  exact_mod_cast Nat.lt_succ_iff.mp (Nat.mod_lt _ (by norm_num))

/-! ## Claims -/

/-- C1: every Point carrying bounds (VAV temp in [65,80], VAV damper in
[0,100], AHU supply_temp in [50,60], AHU return_temp in [68,76], AHU
fan_speed in [30,100]) satisfies bounds.min ≤ value ≤ bounds.max at device
creation and after every simulation tick — the tick clamps every analog
update, and the creation values sit inside their bounds. -/
theorem C1_bounds_invariant (s : VAVObjects) (t : AHUObjects) (d : VAVDraws)
    (e : AHUDraws) (device_instance : ℕ) :
    (65 ≤ (tickVAV s d).temp ∧ (tickVAV s d).temp ≤ 80) ∧
    (0 ≤ (tickVAV s d).damper ∧ (tickVAV s d).damper ≤ 100) ∧
    (50 ≤ (tickAHU t e).supply_temp ∧ (tickAHU t e).supply_temp ≤ 60) ∧
    (68 ≤ (tickAHU t e).return_temp ∧ (tickAHU t e).return_temp ≤ 76) ∧
    (30 ≤ (tickAHU t e).fan_speed ∧ (tickAHU t e).fan_speed ≤ 100) ∧
    (65 ≤ (createVav device_instance).temp ∧
      (createVav device_instance).temp ≤ 80) ∧
    (0 ≤ (createVav device_instance).damper ∧
      (createVav device_instance).damper ≤ 100) ∧
    (50 ≤ createAhu.supply_temp ∧ createAhu.supply_temp ≤ 60) ∧
    (68 ≤ createAhu.return_temp ∧ createAhu.return_temp ≤ 76) ∧
    (30 ≤ createAhu.fan_speed ∧ createAhu.fan_speed ≤ 100) := by
  have hvt : (65:ℚ) ≤ (createVav device_instance).temp ∧
      (createVav device_instance).temp ≤ 80 := by
    have h4 := createVav_mod_cast_le device_instance
    have h0 : (0:ℚ) ≤ ((device_instance % 5 : ℕ) : ℚ) := Nat.cast_nonneg _
    constructor
    · show (65:ℚ) ≤ 72 + ((device_instance % 5 : ℕ) : ℚ)
      linarith
    · show (72:ℚ) + ((device_instance % 5 : ℕ) : ℚ) ≤ 80
      linarith
  exact ⟨clamp_bounds _ _ _ (by norm_num), clamp_bounds _ _ _ (by norm_num),
    clamp_bounds _ _ _ (by norm_num), clamp_bounds _ _ _ (by norm_num),
    clamp_bounds _ _ _ (by norm_num), hvt, by norm_num [createVav],
    by norm_num [createAhu], by norm_num [createAhu], by norm_num [createAhu]⟩

/-- C3: on every AHU tick — both in virtual_ahu.py (and the identical AHU
branch of virtual_all_devices.py) and in simple_device.py — fan_speed is
updated by proportional tracking with target 50.0 + 5.0*(return_temp - 72.0)
and next = clamp(current + (target - current)*0.1, 30, 100), and the
return_temp the target consumes is the value newly committed in the same
tick, stated here as the post-tick return_temp projection. -/
theorem C3_fan_speed_tracking (t : AHUObjects) (u : SimpleAHU) (e : AHUDraws) :
    (tickAHU t e).fan_speed =
      clamp (t.fan_speed +
        ((50 + 5 * ((tickAHU t e).return_temp - 72)) - t.fan_speed) * (1/10))
        30 100 ∧
    (tickSimpleAHU u e).fan_speed =
      clamp (u.fan_speed +
        ((50 + 5 * ((tickSimpleAHU u e).return_temp - 72)) - u.fan_speed) * (1/10))
        30 100 := by
  constructor
  · simp only [tickAHU, clamp]
    congr 1
    congr 1
    ring
  · simp only [tickSimpleAHU, clamp]
    congr 1
    congr 1
    ring

/-- C4: on every tick, each random-walk Point is updated as
next = clamp(current + uniform(-step_range, step_range), bounds.min,
bounds.max), with step_range 0.5 for temp, 5.0 for damper, 1.0 for
supply_temp and 0.5 for return_temp. -/
theorem C4_random_walk_updates (s : VAVObjects) (t : AHUObjects)
    (d : VAVDraws) (e : AHUDraws) :
    (tickVAV s d).temp = clamp (s.temp + unif (-(1/2)) (1/2) d.rTemp) 65 80 ∧
    (tickVAV s d).damper = clamp (s.damper + unif (-5) 5 d.rDamper) 0 100 ∧
    (tickAHU t e).supply_temp =
      clamp (t.supply_temp + unif (-1) 1 e.rSupply) 50 60 ∧
    (tickAHU t e).return_temp =
      clamp (t.return_temp + unif (-(1/2)) (1/2) e.rReturn) 68 76 :=
  ⟨rfl, rfl, rfl, rfl⟩

/-- C5 (amended): for AHU devices of virtual_ahu.py and
virtual_all_devices.py — which do carry a fan_status Point — after every
tick fan_status = active holds exactly when fan_speed > 20.0, fan_status
being recomputed from the fan_speed committed in the same tick.  (The AHU
of simple_device.py creates no fan_status Point at all; see the
counterexample.) -/
theorem C5_fan_status_derived (t : AHUObjects) (e : AHUDraws) :
    (tickAHU t e).fan_status = BinaryPV.active ↔ 20 < (tickAHU t e).fan_speed :=
  derived_status _

/-- C5 counterexample: the objects dict of an AHU created by
simple_device.py holds only supply_temp, return_temp and fan_speed — the
claim's "every AHU device has a fan_status Point" fails for it. -/
theorem C5_counterexample :
    ¬ ("fan_status" ∈ simpleAhuObjects.map Prod.fst) ∧
    simpleAhuObjects.map Prod.fst = ["supply_temp", "return_temp", "fan_speed"] := by
  constructor
  · decide
  · rfl

/-- C9: the ProportionalTracking iterate next = current +
(target - current)*smoothing, with smoothing in (0,1), moves monotonically
toward a fixed target and never overshoots: the distance to target never
grows and next lies between current and target; applied at every tick's
current value this gives monotone convergence without overshoot. -/
theorem C9_tracking_monotone_no_overshoot (current target smoothing : ℚ)
    (h0 : 0 < smoothing) (h1 : smoothing < 1) :
    |trackStep current target smoothing - target| ≤ |current - target| ∧
    min current target ≤ trackStep current target smoothing ∧
    trackStep current target smoothing ≤ max current target := by
  have key : trackStep current target smoothing - target
      = (current - target) * (1 - smoothing) := by
    unfold trackStep
    ring
  refine ⟨?_, ?_, ?_⟩
  · rw [key, abs_mul, abs_of_pos (by linarith : (0:ℚ) < 1 - smoothing)]
    exact mul_le_of_le_one_right (abs_nonneg _) (by linarith)
  · rcases le_total current target with h | h
    · rw [min_eq_left h]
      show current ≤ current + (target - current) * smoothing
      nlinarith
    · rw [min_eq_right h]
      show target ≤ current + (target - current) * smoothing
      nlinarith
  · rcases le_total current target with h | h
    · rw [max_eq_right h]
      show current + (target - current) * smoothing ≤ target
      nlinarith
    · rw [max_eq_left h]
      show current + (target - current) * smoothing ≤ current
      nlinarith

/-- C9 witness: the theorem applied at the AHU's creation fan speed 75
tracking a target of 50 with the code's smoothing 0.1. -/
theorem C9_witness :
    (0:ℚ) < 1/10 ∧ (1/10:ℚ) < 1 ∧
    (|trackStep 75 50 (1/10) - 50| ≤ |(75:ℚ) - 50| ∧
     min (75:ℚ) 50 ≤ trackStep 75 50 (1/10) ∧
     trackStep 75 50 (1/10) ≤ max (75:ℚ) 50) :=
  ⟨by norm_num, by norm_num,
    C9_tracking_monotone_no_overshoot 75 50 (1/10) (by norm_num) (by norm_num)⟩

/-- C2 counterexample: with a device of instance 101 already registered,
`create_vav_device` at instance 101 registers a second device entry (the
registry grows to length 2) instead of failing — there is no failure path —
whereas the specification's DeviceRegistry.create it should refine errors
with DuplicateInstanceError on the same input. -/
theorem C2_counterexample :
    (create_vav_device [⟨"VAV-1", 101, createVav 101⟩] 101 "VAV-dup").length = 2 ∧
    registryCreateSpec [⟨"VAV-1", 101, createVav 101⟩] 101 "VAV-dup" =
      .error .DuplicateInstanceError :=
  ⟨rfl, rfl⟩

/-- C2 (amended): no creation routine checks for a duplicate instance and no
DuplicateInstanceError exists in the code.  `create_vav_device` appends the
new device unconditionally, so a create call whose instance is already
registered succeeds and registers a second device while leaving every
previously registered device's entry (and hence its Points) unchanged; and
`MultiDeviceApplication.create_device` refuses every creation after its
first — returning None and registering nothing — regardless of the instance
number. -/
theorem C2_duplicate_creation_behavior (devices : List VAVDevice)
    (device_instance : ℕ) (device_name : String) (devs : List MDDevice)
    (i : ℕ) (n ty : String) :
    create_vav_device devices device_instance device_name =
      devices ++ [⟨device_name, device_instance, createVav device_instance⟩] ∧
    (create_vav_device devices device_instance device_name).take
      devices.length = devices ∧
    create_device ⟨devs, true⟩ i n ty = (⟨devs, true⟩, none) := by
  refine ⟨rfl, ?_, rfl⟩
  simp [create_vav_device]

/-- C6 counterexample: the VAV objects dict created by simple_device.py
carries temp 73.0 and occupancy active whatever DEVICE_INSTANCE holds, so a
creation at instance 102 violates the table's temp 72 + (102 mod 5) = 74 and
occupancy inactive-for-even. -/
theorem C6_counterexample :
    simpleVavObjects.lookup "temp" = some (PV.analog 73) ∧
    ¬ (simpleVavObjects.lookup "temp" =
        some (PV.analog (72 + ((102 % 5 : ℕ) : ℚ)))) ∧
    simpleVavObjects.lookup "occupancy" = some (PV.binary BinaryPV.active) ∧
    ¬ (simpleVavObjects.lookup "occupancy" =
        some (PV.binary BinaryPV.inactive)) := by
  refine ⟨rfl, ?_, rfl, by decide⟩
  intro h
  simp [simpleVavObjects] at h
  norm_num at h

/-- C6 (amended): the devices created by virtual_vav.py, virtual_ahu.py and
virtual_all_devices.py carry exactly the table's initial values — every
VAV's temp starts at 72 + (instance mod 5), hence in 72-76, occupancy starts
active exactly when the instance is odd, damper 45 and setpoint 72; every
AHU starts at supply_temp 55, return_temp 72, fan_status active, fan_speed
75.  (simple_device.py instead fixes VAV temp at 73.0 and occupancy at
active regardless of instance; see the counterexample.) -/
theorem C6_initial_values (device_instance : ℕ) :
    (createVav device_instance).temp = 72 + ((device_instance % 5 : ℕ) : ℚ) ∧
    (72 ≤ (createVav device_instance).temp ∧
      (createVav device_instance).temp ≤ 76) ∧
    (createVav device_instance).damper = 45 ∧
    (createVav device_instance).occupancy =
      (if device_instance % 2 = 0 then BinaryPV.inactive else BinaryPV.active) ∧
    (createVav device_instance).setpoint = 72 ∧
    createAhu.supply_temp = 55 ∧ createAhu.return_temp = 72 ∧
    createAhu.fan_status = BinaryPV.active ∧ createAhu.fan_speed = 75 ∧
    vavObjectsDict device_instance =
      [("temp", PV.analog ((createVav device_instance).temp)),
       ("damper", PV.analog 45),
       ("occupancy", PV.binary ((createVav device_instance).occupancy)),
       ("setpoint", PV.analog 72)] ∧
    ahuObjectsDict =
      [("supply_temp", PV.analog 55), ("return_temp", PV.analog 72),
       ("fan_status", PV.binary BinaryPV.active), ("fan_speed", PV.analog 75)] := by
  have h4 := createVav_mod_cast_le device_instance
  have h0 : (0:ℚ) ≤ ((device_instance % 5 : ℕ) : ℚ) := Nat.cast_nonneg _
  refine ⟨rfl, ⟨?_, ?_⟩, rfl, rfl, rfl, rfl, rfl, rfl, rfl, rfl, rfl⟩
  · show (72:ℚ) ≤ 72 + ((device_instance % 5 : ℕ) : ℚ)
    linarith
  · show (72:ℚ) + ((device_instance % 5 : ℕ) : ℚ) ≤ 76
    linarith

/-- C7 counterexample: with draws making both uniform samples 0 (unit
samples 1/2), one tick from the instance-101 VAV leaves temp at 73.0 — its
initial value is 72 + (101 mod 5) = 73.0, not 72.0 — so temp differs from
the claim's clamp(72.0 + draw 1, 65, 80) = 72.0. -/
theorem C7_counterexample :
    (tickVAV (createVav 101) ⟨1/2, 1/2, 1⟩).temp = 73 ∧
    ¬ ((tickVAV (createVav 101) ⟨1/2, 1/2, 1⟩).temp =
        clamp (72 + unif (-(1/2)) (1/2) (1/2)) 65 80) := by
  constructor
  · norm_num [tickVAV, createVav, unif]
  · norm_num [tickVAV, createVav, unif, clamp]

/-- C7 (amended): for the VAV created at instance 101 with any fixed RNG
draw sequence, after exactly one tick temp equals the initial value 73.0
(= 72 + (101 mod 5)) plus the tick's first uniform(-0.5, 0.5) draw, clamped
to [65, 80], and damper equals 45.0 plus the second draw, uniform(-5, 5),
clamped to [0, 100]. -/
theorem C7_one_tick_from_instance_101 (d : VAVDraws) :
    (tickVAV (createVav 101) d).temp =
      clamp (73 + unif (-(1/2)) (1/2) d.rTemp) 65 80 ∧
    (tickVAV (createVav 101) d).damper =
      clamp (45 + unif (-5) 5 d.rDamper) 0 100 := by
  constructor
  · show max 65 (min 80 ((createVav 101).temp + unif (-(1/2)) (1/2) d.rTemp)) = _
    norm_num [createVav, clamp]
  · rfl

/-- C8 counterexample: on a fresh MultiDeviceApplication, create_device with
device_type "Chiller" — neither VAV nor AHU — returns the empty objects dict
(no exception path exists) and still registers one device. -/
theorem C8_counterexample :
    (create_device ⟨[], false⟩ 301 "CH-1" "Chiller").2 = some [] ∧
    (create_device ⟨[], false⟩ 301 "CH-1" "Chiller").1.devices =
      [⟨"CH-1", 301, "Chiller", []⟩] := by
  constructor
  · rfl
  · rfl

/-- C8 (amended): a create call whose device_type is neither "VAV" nor "AHU"
does not fail — no UnsupportedDeviceTypeError exists in the code.  On a
fresh application, create_device builds no point objects, still appends a
device entry carrying the empty objects dict, and returns that empty
dict. -/
theorem C8_unknown_type_behavior (devs : List MDDevice)
    (device_instance : ℕ) (device_name dtype : String)
    (h1 : dtype ≠ "VAV") (h2 : dtype ≠ "AHU") :
    create_device ⟨devs, false⟩ device_instance device_name dtype =
      (⟨devs ++ [⟨device_name, device_instance, dtype, []⟩], true⟩, some []) := by
  simp [create_device, h1, h2]

/-- C8 witness: the amended theorem at the concrete unknown type
"Chiller". -/
theorem C8_witness :
    "Chiller" ≠ "VAV" ∧ "Chiller" ≠ "AHU" ∧
    create_device ⟨[], false⟩ 301 "CH-1" "Chiller" =
      (⟨[⟨"CH-1", 301, "Chiller", []⟩], true⟩, some []) :=
  ⟨by decide, by decide,
    C8_unknown_type_behavior [] 301 "CH-1" "Chiller" (by decide) (by decide)⟩

/-- C10: in every reachable state of an AHU device — at creation and after
any number of ticks with any RNG draws — fan_status equals active: the
creation sets it active, and each tick clamps fan_speed to at least 30
before the 20.0 threshold test, so the inactive branch is never taken. -/
theorem C10_fan_status_always_active (ds : List AHUDraws) (t : AHUObjects)
    (e : AHUDraws) :
    (runAHU createAhu ds).fan_status = BinaryPV.active ∧
    30 ≤ (tickAHU t e).fan_speed ∧
    createAhu.fan_status = BinaryPV.active :=
  ⟨runAHU_status ds createAhu rfl, le_max_left _ _, rfl⟩

end Neo
